import Mathlib

/-!
Shallow embedding of the weather-dashboard pipeline in `src/src/App.js`
(component `WeatherAnalyticsApp`): the geocoder disambiguation rule
(`bestMatch`), the weather-code table (`getWeatherDescription`), the
view-model transformation (`transformData`), the hourly forecast
windowing (`processedForecast`), the recommendation generator
(`getRecommendations`), the error behaviour of `fetchWeather` and the
`handleSearch` guard.  JavaScript numbers are modelled as `ℚ`, weather
codes as `ℤ`, JS arrays as `List`, possibly-missing JSON fields as
`Option`, and the two network calls as stubbed response arguments.
-/

namespace WeatherApp

/-- JS `String.prototype.includes` on explicit character lists:
`hasPrefixChars p s` decides whether `p` is a prefix of `s`. -/
def hasPrefixChars : List Char → List Char → Bool
  | [], _ => true
  | _ :: _, [] => false
  | a :: p, b :: s => a == b && hasPrefixChars p s

/-- `hasSubstrChars s sub` decides whether `sub` occurs contiguously in `s`
(case-sensitive, as JS `includes`). -/
def hasSubstrChars : List Char → List Char → Bool
  | [], sub => hasPrefixChars sub []
  | a :: s, sub => hasPrefixChars sub (a :: s) || hasSubstrChars s sub

/-- JS `str.includes(sub)`: case-sensitive contiguous-substring test. -/
def includes (s sub : String) : Bool :=
  hasSubstrChars s.data sub.data

/-- JS `String.prototype.toLowerCase` restricted to ASCII letters (every
string this component lowercases is ASCII). -/
def jsToLowerChar (c : Char) : Char :=
  if 'A' ≤ c ∧ c ≤ 'Z' then Char.ofNat (c.toNat + 32) else c

/-- JS `str.toLowerCase()`. -/
def jsToLower (s : String) : String :=
  String.mk (s.data.map jsToLowerChar)

/-- `Math.round`: round half toward positive infinity. -/
def jsRound (x : ℚ) : ℤ := ⌊x + 1 / 2⌋

/-- Whitespace recognised by JS `String.prototype.trim` (ASCII part). -/
def jsWhitespace (c : Char) : Bool :=
  c == ' ' || c == '\t' || c == '\n' || c == '\r' || c == '\x0b' || c == '\x0c'

/-- JS `str.trim()`: strip leading and trailing whitespace. -/
def jsTrim (s : String) : String :=
  String.mk (((s.data.dropWhile jsWhitespace).reverse.dropWhile jsWhitespace).reverse)

/-- The static weather-code table of `getWeatherDescription`
(App.js lines 48-56); the JS object lookup falls back to `'Unknown'`. -/
def getWeatherDescription (code : ℤ) : String :=
  if code = 0 then "Clear sky"
  else if code = 1 then "Mainly clear"
  else if code = 2 then "Partly cloudy"
  else if code = 3 then "Overcast"
  else if code = 45 then "Foggy"
  else if code = 48 then "Foggy"
  else if code = 51 then "Light drizzle"
  else if code = 53 then "Drizzle"
  else if code = 55 then "Heavy drizzle"
  else if code = 61 then "Light rain"
  else if code = 63 then "Rain"
  else if code = 65 then "Heavy rain"
  else if code = 71 then "Light snow"
  else if code = 73 then "Snow"
  else if code = 75 then "Heavy snow"
  else if code = 80 then "Light showers"
  else if code = 81 then "Showers"
  else if code = 82 then "Heavy showers"
  else if code = 95 then "Thunderstorm"
  else "Unknown"

/-- The inline condition classifier of `transformedData.weather[0].main`
(App.js lines 69-70): case-sensitive substring tests on the description. -/
def conditionMain (weatherDesc : String) : String :=
  if includes weatherDesc "rain" || includes weatherDesc "shower" then "Rain"
  else if includes weatherDesc "cloud" || includes weatherDesc "Overcast" then "Clouds"
  else "Clear"

/-- One geocoding candidate (fields of `geoData.results[i]` that the
component reads). -/
structure Candidate where
  latitude : ℚ
  longitude : ℚ
  name : String
  country : Option String
  feature_code : String
  deriving Repr, DecidableEq

/-- The geocoding response body: `ok` is the HTTP success flag of
`geoResponse`, `results` the candidate list (absent `results` is modelled
as the empty list, which the code treats identically). -/
structure GeoResponse where
  ok : Bool
  results : List Candidate
  deriving Repr

/-- `bestMatch` selection (App.js lines 31-34):
`find(PPLC) || find(PPLA) || results[0]`. -/
def bestMatch (results : List Candidate) : Option Candidate :=
  ((results.find? (fun r => r.feature_code == "PPLC")).orElse
      (fun _ => results.find? (fun r => r.feature_code == "PPLA"))).orElse
    (fun _ => results.head?)

/-- The `current` block of the weather response (fields consumed). -/
structure CurrentData where
  temperature_2m : ℚ
  relative_humidity_2m : ℚ
  apparent_temperature : ℚ
  weather_code : ℤ
  wind_speed_10m : ℚ
  surface_pressure : ℚ
  deriving Repr

/-- The `hourly` block: parallel arrays; `precipitation_probability`
entries may be missing (`undefined`), hence `Option`. -/
structure HourlyData where
  time : List String
  temperature_2m : List ℚ
  relative_humidity_2m : List ℚ
  apparent_temperature : List ℚ
  precipitation_probability : List (Option ℚ)
  deriving Repr

/-- The weather response body: `ok` is the HTTP success flag of
`weatherResponse`. -/
structure WxResponse where
  ok : Bool
  current : CurrentData
  hourly : HourlyData
  deriving Repr

/-- `transformedData.main`. -/
structure MainData where
  temp : ℚ
  feels_like : ℚ
  humidity : ℚ
  pressure : ℚ
  deriving Repr, DecidableEq

/-- One element of `transformedData.weather`. -/
structure WeatherCondition where
  main : String
  description : String
  deriving Repr, DecidableEq

/-- `transformedData.wind`. -/
structure WindData where
  speed : ℚ
  deriving Repr, DecidableEq

/-- `transformedData` (App.js lines 60-76): the normalized view model. -/
structure TransformedData where
  name : String
  main : MainData
  weather : List WeatherCondition
  wind : WindData
  deriving Repr, DecidableEq

/-- Construction of `transformedData` from the best-match candidate's
`name`/`country` and the `current` block (App.js lines 58-76).  The JS
template `${name}${country ? ', ' + country : ''}` treats an absent or
empty country as falsy. -/
def transformData (name : String) (country : Option String) (current : CurrentData) :
    TransformedData :=
  let weatherDesc := getWeatherDescription current.weather_code
  { name := name ++ (match country with
      | some c => if c.isEmpty then "" else ", " ++ c
      | none => "")
    main :=
      { temp := current.temperature_2m
        feels_like := current.apparent_temperature
        humidity := current.relative_humidity_2m
        pressure := current.surface_pressure }
    weather := [{ main := conditionMain weatherDesc, description := jsToLower weatherDesc }]
    wind := { speed := current.wind_speed_10m / 3.6 } }

/-- One element of `processedForecast`. -/
structure ForecastPoint where
  time : String
  temp : ℤ
  feels_like : ℤ
  humidity : ℚ
  rain : ℚ
  deriving Repr, DecidableEq

/-- The body of one `processedForecast.push` (App.js lines 90-96) at array
index `hour`.  `fmt` stands for
`t => new Date(t).toLocaleTimeString('en-US', ...)`, the locale time
formatting, which is opaque to the pipeline; `x || 0` on the
precipitation probability sends a missing entry to `0`. -/
def forecastPointAt (fmt : String → String) (hourly : HourlyData) (hour : ℕ) : ForecastPoint :=
  { time := fmt (hourly.time.getD hour "")
    temp := jsRound (hourly.temperature_2m.getD hour 0)
    feels_like := jsRound (hourly.apparent_temperature.getD hour 0)
    humidity := hourly.relative_humidity_2m.getD hour 0
    rain := (hourly.precipitation_probability.getD hour none).getD 0 }

/-- The `processedForecast` loop (App.js lines 86-98): for `i = 0..7`,
push the sample at index `currentHour + i` when that index is below
`hourlyData.time.length`. -/
def processedForecast (fmt : String → String) (currentHour : ℕ) (hourly : HourlyData) :
    List ForecastPoint :=
  (List.range 8).filterMap fun i =>
    if currentHour + i < hourly.time.length then
      some (forecastPointAt fmt hourly (currentHour + i))
    else none

/-- `getRecommendations` (App.js lines 123-138) on the component's
`weatherData` state: `null` gives `[]`; otherwise one temperature-band
string, then the umbrella, hydration and wind advisories, each guarded
independently.  The JS pushes are modelled as list appends in push
order. -/
def getRecommendations (weatherData : Option TransformedData) : List String :=
  match weatherData with
  | none => []
  | some w =>
    let temp := w.main.temp
    let condition := jsToLower ((w.weather.getD 0 ⟨"", ""⟩).main)
    (if temp < 10 then ["🧥 Wear a warm jacket"]
     else if temp < 20 then ["👕 Light jacket recommended"]
     else ["☀️ Perfect for outdoor activities"]) ++
    (if includes condition "rain" then ["☂️ Don\x27t forget your umbrella"] else []) ++
    (if w.main.humidity > 70 then ["💧 High humidity - stay hydrated"] else []) ++
    (if w.wind.speed > 10 then ["💨 Windy conditions expected"] else [])

/-- The two failure kinds of the pipeline: `NotFoundError` for the
geocoding stage (`throw new Error('City not found')`, or the geocode
call rejecting), `FetchError` for the weather stage
(`throw new Error('Unable to fetch weather data')`, or that call
rejecting). -/
inductive PipelineError where
  | NotFoundError
  | FetchError
  deriving Repr, DecidableEq

/-- The happy-path body of `fetchWeather` (App.js lines 18-100) with the
two network calls stubbed: `geo = none` / `wx = none` model a transport
error (the `fetch` promise rejecting), `ok = false` a non-success HTTP
status.  Returns the transformed view model and forecast, or the stage
error. -/
def fetchWeatherPipeline (geo : Option GeoResponse) (wx : Option WxResponse)
    (fmt : String → String) (currentHour : ℕ) :
    Except PipelineError (TransformedData × List ForecastPoint) :=
  match geo with
  | none => .error .NotFoundError
  | some geoData =>
    if !geoData.ok then .error .NotFoundError
    else if geoData.results.isEmpty then .error .NotFoundError
    else
      match bestMatch geoData.results with
      | none => .error .NotFoundError
      | some bm =>
        match wx with
        | none => .error .FetchError
        | some weatherData =>
          if !weatherData.ok then .error .FetchError
          else
            .ok (transformData bm.name bm.country weatherData.current,
                 processedForecast fmt currentHour weatherData.hourly)

/-- The component's reactive state (`useState` hooks of
`WeatherAnalyticsApp`). -/
structure AppState where
  location : String
  searchInput : String
  weatherData : Option TransformedData
  forecast : List ForecastPoint
  loading : Bool
  error : String
  deriving Repr, DecidableEq

/-- The generic user-visible failure message set in the `catch` block
(App.js line 102). -/
def genericErrorMessage : String :=
  "Unable to fetch weather data. Please try another city."

/-- `fetchWeather` as a state transition (App.js lines 15-107):
`setLoading(true)`, `setError('')`, run the pipeline; on success replace
`weatherData`, `location` and `forecast`; in `catch` set the generic
error message; in `finally` clear `loading`. -/
def fetchWeather (geo : Option GeoResponse) (wx : Option WxResponse)
    (fmt : String → String) (currentHour : ℕ) (s : AppState) : AppState :=
  let s1 : AppState := { s with loading := true, error := "" }
  match fetchWeatherPipeline geo wx fmt currentHour with
  | .ok (td, fc) =>
    { s1 with weatherData := some td, location := td.name, forecast := fc, loading := false }
  | .error _ =>
    { s1 with error := genericErrorMessage, loading := false }

/-- `handleSearch` (App.js lines 109-113) as a pure decision: `none` when
the trimmed input is empty (falsy), otherwise the trimmed city string the
fetch is invoked with. -/
def handleSearch (searchInput : String) : Option String :=
  if (jsTrim searchInput).isEmpty then none else some (jsTrim searchInput)

/-- `handleSearch` as a state transition: run `fetchWeather` exactly when
the trimmed input is non-empty, else leave the state untouched. -/
def handleSearchState (geo : Option GeoResponse) (wx : Option WxResponse)
    (fmt : String → String) (currentHour : ℕ) (s : AppState) : AppState :=
  match handleSearch s.searchInput with
  | some _ => fetchWeather geo wx fmt currentHour s
  | none => s

/-- If index `i` is the first position of `l` satisfying `p`, then
`l.find? p` returns the element at `i`. -/
lemma find?_eq_some_get_of_first {α : Type} (p : α → Bool) (l : List α) (i : ℕ)
    (hi : i < l.length) (hp : p (l.get ⟨i, hi⟩) = true)
    (hmin : ∀ (j : ℕ) (hj : j < i), p (l.get ⟨j, Nat.lt_trans hj hi⟩) = false) :
    l.find? p = some (l.get ⟨i, hi⟩) := by
  induction l generalizing i with
  | nil => simp at hi
  | cons a t ih =>
    cases i with
    | zero => simpa using List.find?_cons_of_pos t (by simpa using hp)
    | succ n =>
      have ha : p a = false := by simpa using hmin 0 (Nat.succ_pos n)
      rw [List.find?_cons_of_neg t (by simp [ha])]
      have hi' : n < t.length := by simpa using hi
      have := ih n hi' (by simpa using hp)
        (fun j hj => by simpa using hmin (j + 1) (by omega))
      simpa using this

/-- C1: the geocoder selects the first capital-flagged (`PPLC`) candidate
wherever it sits in the list; with no capital, the first primary
administrative city (`PPLA`); with neither, the first candidate. -/
theorem bestMatch_disambiguation (results : List Candidate) :
    (∀ (i : ℕ) (hi : i < results.length),
      (results.get ⟨i, hi⟩).feature_code = "PPLC" →
      (∀ (j : ℕ) (hj : j < i), (results.get ⟨j, Nat.lt_trans hj hi⟩).feature_code ≠ "PPLC") →
      bestMatch results = some (results.get ⟨i, hi⟩)) ∧
    ((∀ r ∈ results, r.feature_code ≠ "PPLC") →
      ∀ (i : ℕ) (hi : i < results.length),
      (results.get ⟨i, hi⟩).feature_code = "PPLA" →
      (∀ (j : ℕ) (hj : j < i), (results.get ⟨j, Nat.lt_trans hj hi⟩).feature_code ≠ "PPLA") →
      bestMatch results = some (results.get ⟨i, hi⟩)) ∧
    ((∀ r ∈ results, r.feature_code ≠ "PPLC" ∧ r.feature_code ≠ "PPLA") →
      bestMatch results = results.head?) := by
  refine ⟨?_, ?_, ?_⟩
  · intro i hi hp hmin
    have h1 : results.find? (fun r => r.feature_code == "PPLC") = some (results.get ⟨i, hi⟩) :=
      find?_eq_some_get_of_first _ results i hi (by simpa using hp)
        (fun j hj => by simpa using hmin j hj)
    simp [bestMatch, h1]
  · intro hnone i hi hp hmin
    have h0 : results.find? (fun r => r.feature_code == "PPLC") = none := by
      rw [List.find?_eq_none]; intro x hx; simpa using hnone x hx
    have h1 : results.find? (fun r => r.feature_code == "PPLA") = some (results.get ⟨i, hi⟩) :=
      find?_eq_some_get_of_first _ results i hi (by simpa using hp)
        (fun j hj => by simpa using hmin j hj)
    simp [bestMatch, h0, h1]
  · intro hnone
    have h0 : results.find? (fun r => r.feature_code == "PPLC") = none := by
      rw [List.find?_eq_none]; intro x hx; simpa using (hnone x hx).1
    have h1 : results.find? (fun r => r.feature_code == "PPLA") = none := by
      rw [List.find?_eq_none]; intro x hx; simpa using (hnone x hx).2
    simp [bestMatch, h0, h1]

/-- Witness for C1: a capital-flagged candidate at index 1 is preferred
over the service-ranked first candidate. -/
theorem bestMatch_disambiguation_witness :
    bestMatch [⟨0, 0, "A", none, "PPL"⟩, ⟨1, 1, "B", none, "PPLC"⟩] =
      some (([⟨0, 0, "A", none, "PPL"⟩, ⟨1, 1, "B", none, "PPLC"⟩] :
        List Candidate).get ⟨1, by decide⟩) :=
  (bestMatch_disambiguation _).1 1 (by decide) (by decide)
    (fun j hj => by
      have hj0 : j = 0 := by omega
      subst hj0
      simp)

/-- C2: the weather-code table maps each documented code to its listed
string and every other integer to "Unknown". -/
theorem getWeatherDescription_table :
    (getWeatherDescription 0 = "Clear sky" ∧ getWeatherDescription 1 = "Mainly clear" ∧
     getWeatherDescription 2 = "Partly cloudy" ∧ getWeatherDescription 3 = "Overcast" ∧
     getWeatherDescription 45 = "Foggy" ∧ getWeatherDescription 48 = "Foggy" ∧
     getWeatherDescription 51 = "Light drizzle" ∧ getWeatherDescription 53 = "Drizzle" ∧
     getWeatherDescription 55 = "Heavy drizzle" ∧ getWeatherDescription 61 = "Light rain" ∧
     getWeatherDescription 63 = "Rain" ∧ getWeatherDescription 65 = "Heavy rain" ∧
     getWeatherDescription 71 = "Light snow" ∧ getWeatherDescription 73 = "Snow" ∧
     getWeatherDescription 75 = "Heavy snow" ∧ getWeatherDescription 80 = "Light showers" ∧
     getWeatherDescription 81 = "Showers" ∧ getWeatherDescription 82 = "Heavy showers" ∧
     getWeatherDescription 95 = "Thunderstorm") ∧
    ∀ code : ℤ,
      code ∉ ([0, 1, 2, 3, 45, 48, 51, 53, 55, 61, 63, 65, 71, 73, 75, 80, 81, 82, 95] : List ℤ) →
      getWeatherDescription code = "Unknown" := by
  constructor
  · decide
  · intro code hc
    simp only [List.mem_cons, List.not_mem_nil, or_false, not_or] at hc
    obtain ⟨h0, h1, h2, h3, h4, h5, h6, h7, h8, h9, h10, h11, h12, h13, h14, h15,
      h16, h17, h18⟩ := hc
    simp [getWeatherDescription, h0, h1, h2, h3, h4, h5, h6, h7, h8, h9, h10,
      h11, h12, h13, h14, h15, h16, h17, h18]

/-- Witness for C2: the undocumented code 42 maps to "Unknown". -/
theorem getWeatherDescription_table_witness : getWeatherDescription 42 = "Unknown" :=
  getWeatherDescription_table.2 42 (by decide)

/-- Counterexample to C3 as stated: code 51 is a drizzle-family code, yet
its description "Light drizzle" contains neither "rain" nor "shower", so
the category is "Clear", not "Rain". -/
theorem conditionMain_counterexample :
    getWeatherDescription 51 = "Light drizzle" ∧
    conditionMain (getWeatherDescription 51) = "Clear" ∧
    conditionMain (getWeatherDescription 51) ≠ "Rain" := by
  refine ⟨by decide, by decide, by decide⟩

/-- C3 (amended): the category each table code actually receives from the
case-sensitive substring rule.  Of the rain/shower-family codes only 61,
65, 80 and 82 yield "Rain"; 51/53/55 ("... drizzle"), 63 ("Rain") and 81
("Showers") yield "Clear" because the lowercase substring tests miss
them. -/
theorem conditionMain_per_code :
    conditionMain (getWeatherDescription 0) = "Clear" ∧
    conditionMain (getWeatherDescription 1) = "Clear" ∧
    conditionMain (getWeatherDescription 2) = "Clouds" ∧
    conditionMain (getWeatherDescription 3) = "Clouds" ∧
    conditionMain (getWeatherDescription 45) = "Clear" ∧
    conditionMain (getWeatherDescription 48) = "Clear" ∧
    conditionMain (getWeatherDescription 51) = "Clear" ∧
    conditionMain (getWeatherDescription 53) = "Clear" ∧
    conditionMain (getWeatherDescription 55) = "Clear" ∧
    conditionMain (getWeatherDescription 61) = "Rain" ∧
    conditionMain (getWeatherDescription 63) = "Clear" ∧
    conditionMain (getWeatherDescription 65) = "Rain" ∧
    conditionMain (getWeatherDescription 71) = "Clear" ∧
    conditionMain (getWeatherDescription 73) = "Clear" ∧
    conditionMain (getWeatherDescription 75) = "Clear" ∧
    conditionMain (getWeatherDescription 80) = "Rain" ∧
    conditionMain (getWeatherDescription 81) = "Clear" ∧
    conditionMain (getWeatherDescription 82) = "Rain" ∧
    conditionMain (getWeatherDescription 95) = "Clear" := by
  decide

/-- C4: the view model's wind speed is the raw km/h value divided by 3.6
exactly — multiplying back by 3.6 recovers the raw value, and no rounding
is applied. -/
theorem windSpeedMs_conversion (name : String) (country : Option String)
    (current : CurrentData) :
    (transformData name country current).wind.speed * 3.6 = current.wind_speed_10m ∧
    (transformData name country current).wind.speed = current.wind_speed_10m / 3.6 := by
  refine ⟨?_, rfl⟩
  show current.wind_speed_10m / 3.6 * 3.6 = current.wind_speed_10m
  rw [div_mul_cancel₀]
  norm_num

/-- The forecast loop collapses to mapping the push body over the window
of surviving indices. -/
lemma filterMap_range_window {α : Type} (g : ℕ → α) (n h L : ℕ) :
    ((List.range n).filterMap fun i => if h + i < L then some (g i) else none) =
      (List.range (min n (L - h))).map g := by
  induction n with
  | zero => simp
  | succ n ih =>
    rw [List.range_succ, List.filterMap_append, ih]
    by_cases hc : h + n < L
    · have h2 : min n (L - h) = n := by omega
      have h1 : min (n + 1) (L - h) = n + 1 := by omega
      rw [h1, h2, List.range_succ, List.map_append]
      simp [hc]
    · have h1 : min (n + 1) (L - h) = min n (L - h) := by omega
      rw [h1]
      simp [hc]

/-- `processedForecast` equals the samples at indices
`currentHour, currentHour+1, ...` for as long as they exist, up to 8. -/
lemma processedForecast_eq_map (fmt : String → String) (currentHour : ℕ) (hourly : HourlyData) :
    processedForecast fmt currentHour hourly =
      (List.range (min 8 (hourly.time.length - currentHour))).map
        (fun i => forecastPointAt fmt hourly (currentHour + i)) :=
  filterMap_range_window _ 8 currentHour hourly.time.length

/-- C5: the forecast sequence has length `min 8 (L - h)` (truncated
subtraction floors at 0), its `i`-th point is the hourly sample at index
`h + i` (consecutive, chronological), and an empty hourly series yields
an empty sequence with no error. -/
theorem processedForecast_window (fmt : String → String) (currentHour : ℕ)
    (hourly : HourlyData) :
    (processedForecast fmt currentHour hourly).length
        = min 8 (hourly.time.length - currentHour) ∧
    (∀ (i : ℕ) (pt : ForecastPoint),
      (processedForecast fmt currentHour hourly)[i]? = some pt →
      pt = forecastPointAt fmt hourly (currentHour + i)) ∧
    (hourly.time.length = 0 → processedForecast fmt currentHour hourly = []) := by
  refine ⟨?_, ?_, ?_⟩
  · rw [processedForecast_eq_map]; simp
  · intro i pt hpt
    rw [processedForecast_eq_map, List.getElem?_map] at hpt
    rcases h : (List.range (min 8 (hourly.time.length - currentHour)))[i]? with _ | ⟨j⟩
    · rw [h] at hpt; simp at hpt
    · rw [h] at hpt
      have hj : j = i := by
        rcases Nat.lt_or_ge i (min 8 (hourly.time.length - currentHour)) with hlt | hge
        · rw [List.getElem?_range hlt] at h; exact (Option.some.inj h).symm
        · rw [List.getElem?_eq_none (by simpa using hge)] at h; cases h
      subst hj
      simpa using hpt.symm
  · intro h0
    rw [processedForecast_eq_map, h0]
    simp

/-- Witness for C5: a weather response with zero hourly entries gives an
empty forecast sequence. -/
theorem processedForecast_window_witness :
    processedForecast id 0 ⟨[], [], [], [], []⟩ = [] :=
  (processedForecast_window id 0 ⟨[], [], [], [], []⟩).2.2 rfl

/-- C6: each produced forecast point rounds temperature and feels-like to
the nearest integer (`Math.round`), passes humidity and precipitation
probability through unrounded, and a missing precipitation value
defaults to 0 (`pv = none` gives `rain = 0`). -/
theorem processedForecast_fields (fmt : String → String) (hourly : HourlyData)
    (h i : ℕ) (tv av hv : ℚ) (pv : Option ℚ)
    (hi8 : i < 8) (hlen : h + i < hourly.time.length)
    (htv : hourly.temperature_2m[h + i]? = some tv)
    (hav : hourly.apparent_temperature[h + i]? = some av)
    (hhv : hourly.relative_humidity_2m[h + i]? = some hv)
    (hpv : hourly.precipitation_probability[h + i]? = some pv) :
    (processedForecast fmt h hourly)[i]? =
      some { time := fmt (hourly.time.getD (h + i) "")
             temp := jsRound tv
             feels_like := jsRound av
             humidity := hv
             rain := pv.getD 0 } := by
  rw [processedForecast_eq_map, List.getElem?_map, List.getElem?_range (by omega)]
  simp [forecastPointAt, htv, hav, hhv, hpv]

/-- Witness for C6: at hour 1 the point rounds 3.5 °C up to 4 and
-2.5 °C up to -2, passes humidity 60 through, and a missing
precipitation probability becomes 0. -/
theorem processedForecast_fields_witness :
    (processedForecast id 1
        ⟨["t0", "t1"], [1/2, 7/2], [50, 60], [0, -5/2], [some 10, none]⟩)[0]? =
      some { time := "t1", temp := 4, feels_like := -2, humidity := 60, rain := 0 } := by
  have h := processedForecast_fields id
    ⟨["t0", "t1"], [1/2, 7/2], [50, 60], [0, -5/2], [some 10, none]⟩
    1 0 (7/2) (-5/2) 60 none (by decide) (by decide) rfl rfl rfl rfl
  rw [h]
  norm_num [jsRound]

/-- Counterexample to C7 as stated: a warm, clear, dry, calm view model
(25 °C, category "Clear", humidity 50, wind 5 m/s from raw 18 km/h)
produces exactly one advisory, so the advisory count is not between 2
and 4. -/
theorem getRecommendations_count_counterexample :
    getRecommendations (some (transformData "Nice" none ⟨25, 50, 26, 0, 18, 1013⟩)) =
      ["☀️ Perfect for outdoor activities"] ∧
    ¬ 2 ≤ (getRecommendations (some (transformData "Nice" none ⟨25, 50, 26, 0, 18, 1013⟩))).length := by
  have h1 : conditionMain (getWeatherDescription 0) = "Clear" := by decide
  have h2 : includes (jsToLower "Clear") "rain" = false := by decide
  have heq : getRecommendations (some (transformData "Nice" none ⟨25, 50, 26, 0, 18, 1013⟩)) =
      ["☀️ Perfect for outdoor activities"] := by
    simp only [getRecommendations, transformData, h1, List.getD]
    norm_num [h2]
  exact ⟨heq, by rw [heq]; simp⟩

/-- C7 (amended): the recommendation list is the temperature-band
advisory followed by the independently guarded umbrella (category
"Rain"), hydration (humidity > 70) and wind (converted speed > 10 m/s)
advisories in that fixed order, and its length is between 1 and 4 (a
single advisory occurs when no conditional rule fires). -/
theorem getRecommendations_rules (w : TransformedData)
    (hmain : (w.weather.getD 0 ⟨"", ""⟩).main = "Rain" ∨
             (w.weather.getD 0 ⟨"", ""⟩).main = "Clouds" ∨
             (w.weather.getD 0 ⟨"", ""⟩).main = "Clear") :
    getRecommendations (some w) =
      (if w.main.temp < 10 then ["🧥 Wear a warm jacket"]
       else if w.main.temp < 20 then ["👕 Light jacket recommended"]
       else ["☀️ Perfect for outdoor activities"]) ++
      (if (w.weather.getD 0 ⟨"", ""⟩).main = "Rain" then ["☂️ Don\x27t forget your umbrella"]
       else []) ++
      (if w.main.humidity > 70 then ["💧 High humidity - stay hydrated"] else []) ++
      (if w.wind.speed > 10 then ["💨 Windy conditions expected"] else []) ∧
    1 ≤ (getRecommendations (some w)).length ∧
    (getRecommendations (some w)).length ≤ 4 := by
  have heq : getRecommendations (some w) =
      (if w.main.temp < 10 then ["🧥 Wear a warm jacket"]
       else if w.main.temp < 20 then ["👕 Light jacket recommended"]
       else ["☀️ Perfect for outdoor activities"]) ++
      (if (w.weather.getD 0 ⟨"", ""⟩).main = "Rain" then ["☂️ Don\x27t forget your umbrella"]
       else []) ++
      (if w.main.humidity > 70 then ["💧 High humidity - stay hydrated"] else []) ++
      (if w.wind.speed > 10 then ["💨 Windy conditions expected"] else []) := by
    rcases hmain with h | h | h <;>
      simp only [getRecommendations, h] <;>
      norm_num [show includes (jsToLower "Rain") "rain" = true from by decide,
        show includes (jsToLower "Clouds") "rain" = false from by decide,
        show includes (jsToLower "Clear") "rain" = false from by decide] <;>
      decide
  refine ⟨heq, ?_, ?_⟩ <;> rw [heq] <;>
    rcases lt_or_ge w.main.temp 10 with h1 | h1 <;>
    rcases lt_or_ge w.main.temp 20 with h2 | h2 <;>
    split_ifs <;> simp_all

/-- Witness for C7 (amended): cold, rainy, humid and windy conditions
emit all four advisories in the fixed order. -/
theorem getRecommendations_rules_witness :
    getRecommendations (some ⟨"X", ⟨5, 4, 80, 1013⟩, [⟨"Rain", "rain"⟩], ⟨11⟩⟩) =
      ["🧥 Wear a warm jacket", "☂️ Don\x27t forget your umbrella",
       "💧 High humidity - stay hydrated", "💨 Windy conditions expected"] := by
  have h := (getRecommendations_rules ⟨"X", ⟨5, 4, 80, 1013⟩, [⟨"Rain", "rain"⟩], ⟨11⟩⟩
    (Or.inl rfl)).1
  rw [h]
  norm_num

/-- A non-empty candidate list always yields a best match (the fallback
`results[0]` exists). -/
lemma bestMatch_isSome (results : List Candidate) (h : results ≠ []) :
    (bestMatch results).isSome := by
  cases results with
  | nil => exact absurd rfl h
  | cons a t =>
    rw [bestMatch]
    rcases h1 : ((a :: t).find? fun r => r.feature_code == "PPLC") with _ | c
    · rcases h2 : ((a :: t).find? fun r => r.feature_code == "PPLA") with _ | c
      · simp [Option.orElse, h1, h2]
      · simp [Option.orElse, h1, h2]
    · simp [Option.orElse, h1]

/-- C8: the single-attempt pipeline fails with `NotFoundError` exactly
when the geocode call fails (transport error or non-success status) or
returns zero candidates, and with `FetchError` exactly when geocoding
succeeded with candidates but the weather call fails (transport error or
non-success status). -/
theorem fetchWeatherPipeline_errors (geo : Option GeoResponse) (wx : Option WxResponse)
    (fmt : String → String) (currentHour : ℕ) :
    (fetchWeatherPipeline geo wx fmt currentHour = .error .NotFoundError ↔
      geo = none ∨ ∃ g, geo = some g ∧ (g.ok = false ∨ g.results = [])) ∧
    (fetchWeatherPipeline geo wx fmt currentHour = .error .FetchError ↔
      ∃ g, geo = some g ∧ g.ok = true ∧ g.results ≠ [] ∧
        (wx = none ∨ ∃ w, wx = some w ∧ w.ok = false)) := by
  rcases geo with _ | g
  · simp [fetchWeatherPipeline]
  · rcases hok : g.ok with _ | _
    · simp [fetchWeatherPipeline, hok]
    · rcases hres : g.results with _ | ⟨a, t⟩
      · simp [fetchWeatherPipeline, hok, hres]
      · have hne : g.results ≠ [] := by rw [hres]; simp
        have hsome := bestMatch_isSome g.results hne
        rcases hbm : bestMatch g.results with _ | bm
        · rw [hbm] at hsome; simp at hsome
        · rw [hres] at hbm
          rcases wx with _ | w
          · simp [fetchWeatherPipeline, hok, hres, hbm]
          · rcases hwok : w.ok with _ | _
            · simp [fetchWeatherPipeline, hok, hres, hbm, hwok]
            · simp [fetchWeatherPipeline, hok, hres, hbm, hwok]

/-- C9: a failing pipeline invocation leaves the displayed view model,
forecast sequence and location untouched, sets the single generic error
message (the same constant for both failure kinds), and clears the
loading flag. -/
theorem fetchWeather_failure_frame (geo : Option GeoResponse) (wx : Option WxResponse)
    (fmt : String → String) (currentHour : ℕ) (s : AppState) (e : PipelineError)
    (hfail : fetchWeatherPipeline geo wx fmt currentHour = .error e) :
    (fetchWeather geo wx fmt currentHour s).weatherData = s.weatherData ∧
    (fetchWeather geo wx fmt currentHour s).forecast = s.forecast ∧
    (fetchWeather geo wx fmt currentHour s).location = s.location ∧
    (fetchWeather geo wx fmt currentHour s).error = genericErrorMessage ∧
    (fetchWeather geo wx fmt currentHour s).loading = false := by
  simp [fetchWeather, hfail]

/-- Witness for C9: a geocode transport error leaves previous view state
in place, shows the generic message, and ends the loading state. -/
theorem fetchWeather_failure_frame_witness :
    (fetchWeather none none id 0 ⟨"L", "q", none, [], false, ""⟩).weatherData = none ∧
    (fetchWeather none none id 0 ⟨"L", "q", none, [], false, ""⟩).forecast = [] ∧
    (fetchWeather none none id 0 ⟨"L", "q", none, [], false, ""⟩).location = "L" ∧
    (fetchWeather none none id 0 ⟨"L", "q", none, [], false, ""⟩).error = genericErrorMessage ∧
    (fetchWeather none none id 0 ⟨"L", "q", none, [], false, ""⟩).loading = false :=
  fetchWeather_failure_frame none none id 0 ⟨"L", "q", none, [], false, ""⟩ .NotFoundError rfl

/-- C10: a whitespace-only search input triggers no fetch and leaves the
state unchanged; otherwise the fetch runs with the trimmed input, where
trimming removes exactly the maximal whitespace margins (the remainder is
a contiguous slice whose first and last characters are not whitespace). -/
theorem handleSearch_guard (geo : Option GeoResponse) (wx : Option WxResponse)
    (fmt : String → String) (currentHour : ℕ) (s : AppState) :
    ((∀ c ∈ s.searchInput.data, jsWhitespace c = true) →
      handleSearch s.searchInput = none ∧
      handleSearchState geo wx fmt currentHour s = s) ∧
    (jsTrim s.searchInput ≠ "" →
      handleSearch s.searchInput = some (jsTrim s.searchInput) ∧
      handleSearchState geo wx fmt currentHour s = fetchWeather geo wx fmt currentHour s) ∧
    (∃ pre post, s.searchInput.data = pre ++ (jsTrim s.searchInput).data ++ post ∧
      (∀ c ∈ pre, jsWhitespace c = true) ∧ (∀ c ∈ post, jsWhitespace c = true)) ∧
    (∀ c, ((jsTrim s.searchInput).data.head? = some c → jsWhitespace c = false) ∧
      ((jsTrim s.searchInput).data.getLast? = some c → jsWhitespace c = false)) := by
  refine ⟨?_, ?_, ?_, ?_⟩
  · intro hws
    have h1 : s.searchInput.data.dropWhile jsWhitespace = [] :=
      List.dropWhile_eq_nil_iff.2 hws
    have h2 : jsTrim s.searchInput = "" := by
      rw [jsTrim, h1]; rfl
    constructor
    · rw [handleSearch, h2]; rfl
    · rw [handleSearchState]
      rw [handleSearch, h2]
      rfl
  · intro hne
    have h2 : ¬ (jsTrim s.searchInput).isEmpty := by
      simpa [String.isEmpty_iff] using hne
    constructor
    · rw [handleSearch, if_neg h2]
    · rw [handleSearchState, handleSearch, if_neg h2]
  · refine ⟨s.searchInput.data.takeWhile jsWhitespace,
      ((s.searchInput.data.dropWhile jsWhitespace).reverse.takeWhile jsWhitespace).reverse,
      ?_, fun c hc => List.mem_takeWhile_imp hc, fun c hc => ?_⟩
    · have hm : s.searchInput.data.dropWhile jsWhitespace =
          ((s.searchInput.data.dropWhile jsWhitespace).reverse.dropWhile jsWhitespace).reverse ++
          ((s.searchInput.data.dropWhile jsWhitespace).reverse.takeWhile jsWhitespace).reverse := by
        conv_lhs => rw [← List.reverse_reverse (s.searchInput.data.dropWhile jsWhitespace),
          ← List.takeWhile_append_dropWhile (p := jsWhitespace)
            (l := (s.searchInput.data.dropWhile jsWhitespace).reverse)]
        rw [List.reverse_append]
      conv_lhs => rw [← List.takeWhile_append_dropWhile (p := jsWhitespace)
        (l := s.searchInput.data), hm]
      rw [jsTrim]
      simp [List.append_assoc]
    · rw [List.mem_reverse] at hc
      exact List.mem_takeWhile_imp hc
  · intro c
    have hm : s.searchInput.data.dropWhile jsWhitespace =
        (jsTrim s.searchInput).data ++
        ((s.searchInput.data.dropWhile jsWhitespace).reverse.takeWhile jsWhitespace).reverse := by
      rw [jsTrim]
      conv_lhs => rw [← List.reverse_reverse (s.searchInput.data.dropWhile jsWhitespace),
        ← List.takeWhile_append_dropWhile (p := jsWhitespace)
          (l := (s.searchInput.data.dropWhile jsWhitespace).reverse)]
      rw [List.reverse_append]
    constructor
    · intro hc
      have h1 : (s.searchInput.data.dropWhile jsWhitespace).head? = some c := by
        rw [hm, List.head?_append, hc]
        rfl
      have h2 := List.head?_dropWhile_not jsWhitespace s.searchInput.data
      rw [h1] at h2
      exact h2
    · intro hc
      have h1 : (jsTrim s.searchInput).data.reverse.head? = some c := by
        rw [← List.getLast?_eq_head?_reverse]
        exact hc
      have h2 : (jsTrim s.searchInput).data.reverse =
          (s.searchInput.data.dropWhile jsWhitespace).reverse.dropWhile jsWhitespace := by
        rw [jsTrim]
        simp
      rw [h2] at h1
      have h3 := List.head?_dropWhile_not jsWhitespace
        (s.searchInput.data.dropWhile jsWhitespace).reverse
      rw [h1] at h3
      exact h3

/-- Witness for C10: the input "  hi " (with margins) leads to a fetch
for the trimmed city "hi". -/
theorem handleSearch_guard_witness :
    handleSearch "  hi " = some "hi" :=
  ((handleSearch_guard none none id 0 ⟨"", "  hi ", none, [], false, ""⟩).2.1
    (by decide)).1

end WeatherApp
